/-
Verification of the vnlib.browser session credential lifecycle.

This file shallowly embeds the session-layer code of the repository
(src/session/session.ts, src/session/sessionUtils.ts,
src/session/sessionKeyStore.ts, src/user/user.ts and the MFA login
processor) as executable Lean definitions, and proves the specified
properties about them.

Modelling conventions:
- JS nullable strings become `Option String`; lodash `isEmpty`/`isNil`
  and JS truthiness are embedded explicitly where the source uses them.
- Asynchronous functions that cannot reject are plain functions;
  functions whose promise may reject return `Except`.
- WebCrypto key material is opaque to the client: a generated keypair is
  identified by the index of the `generateKey` call that produced it
  (`window.crypto` randomness modelled as a fresh-index supply), and the
  PKCS8/SPKI export plus base64 encoding are modelled as injective
  constructors on that identity, matching the fact that the code never
  inspects the encoded bytes.
- `getRandomValues` randomness is an explicit stream `Nat → String`
  consumed at an explicit counter, so "a new nonce is generated per
  call" is the statement that the counter advances.
-/
import Mathlib

namespace VnBrowser

/-! ## Session state primitives (src/session/session.ts) -/

/-- lodash `isEmpty` restricted to a nullable string: `true` on
`null`/`undefined` and on the empty string. -/
def isEmptyStr : Option String → Bool
  | none => true
  | some s => s.length == 0

/-- The spec's "shared secret token is set": a present, non-empty token. -/
def tokenIsSet : Option String → Bool
  | none => false
  | some s => s ≠ ""

/-- The `loggedIn` computed ref, session.ts lines 31-38:
`tokenVal := !isEmpty(token)`; if cookies are enabled the result is
`loginCookie > 0 && tokenVal`, otherwise `tokenVal`. -/
def loggedIn (cookiesEnabled : Bool) (loginCookie : Nat) (token : Option String) : Bool :=
  let tokenVal := !(isEmptyStr token)
  if cookiesEnabled then decide (loginCookie > 0) && tokenVal else tokenVal

/-- Modelled from the spec: `cookiesEnabled ? (loginCookie > 0 AND
sharedSecret set) : sharedSecret set`, to be compared with `loggedIn`. -/
def loggedInSpec (cookiesEnabled : Bool) (loginCookie : Nat) (token : Option String) : Bool :=
  if cookiesEnabled then decide (loginCookie > 0) && tokenIsSet token else tokenIsSet token

/-- The `isLocalAccount` computed ref, session.ts line 41. -/
def isLocalAccount (loginCookie : Nat) : Bool :=
  loginCookie == 1

/-! ## The reactive session as a transition system

session.ts wires a `watch` on `loggedIn` (line 50) that clears the
stored token whenever the computed value changes from `true` to `false`.
We model the session-visible state and the events that mutate its
dependencies, running the watcher after each mutation exactly as Vue
fires it on a change of the watched computed. -/

/-- The state the `loggedIn` computed and its watcher can observe:
the fixed `cookiesEnabled` config flag, the server-controlled login
cookie value, and the persisted `{token, bid}` record. -/
structure SessionSnap where
  cookiesEnabled : Bool
  cookie : Nat
  token : Option String
  browserId : Option String
deriving DecidableEq, Repr

/-- The `loggedIn` value read on a snapshot. -/
def snapLoggedIn (s : SessionSnap) : Bool :=
  loggedIn s.cookiesEnabled s.cookie s.token

/-- Events that mutate the dependencies of `loggedIn`. -/
inductive SessionEvent where
  /-- The server (or expiry) rewrites the login-indicator cookie. -/
  | cookieChange (n : Nat)
  /-- Event for `updateCredentials` storing a freshly decrypted secret
  (sessionUtils.ts line 53). -/
  | credentialsUpdate (secret : String)
  /-- Event for `clearLoginState` → `state.clearState()`: token and browser id
  reset together (sessionUtils.ts line 83). -/
  | clearLogin
  /-- Event for `checkAndSetCredentials` storing a generated browser id
  (sessionUtils.ts line 38). -/
  | browserIdSet (bid : String)
deriving DecidableEq, Repr

/-- Raw effect of an event on the snapshot, before the watcher runs. -/
def applyEvent : SessionEvent → SessionSnap → SessionSnap
  | .cookieChange n, s => { s with cookie := n }
  | .credentialsUpdate secret, s => { s with token := some secret }
  | .clearLogin, s => { s with token := none, browserId := none }
  | .browserIdSet bid, s => { s with browserId := some bid }

/-- The watcher of session.ts line 50: when `loggedIn` changes from
`true` to `false`, set `token` to `null`; otherwise do nothing. -/
def watchLoggedIn (old new : SessionSnap) : SessionSnap :=
  if snapLoggedIn old && !(snapLoggedIn new) then { new with token := none } else new

/-- One reactive step: apply the mutation, then flush the watcher. -/
def step (e : SessionEvent) (s : SessionSnap) : SessionSnap :=
  watchLoggedIn s (applyEvent e s)

/-- Run a sequence of events. -/
def run (es : List SessionEvent) (s : SessionSnap) : SessionSnap :=
  es.foldl (fun s e => step e s) s

/-- A fresh browsing context: empty persisted record, cookie absent
(read as 0). -/
def initialSnap (cookiesEnabled : Bool) : SessionSnap :=
  { cookiesEnabled := cookiesEnabled, cookie := 0, token := none, browserId := none }

/-- States reachable from a fresh context by reactive steps. -/
def Reachable (cookiesEnabled : Bool) (s : SessionSnap) : Prop :=
  ∃ es, run es (initialSnap cookiesEnabled) = s

/-! ## Key store (src/session/sessionKeyStore.ts) -/

/-- Output of `crypto.exportKey`: the PKCS8 private half or the SPKI
public half of the keypair produced by the `gen`-th `generateKey` call.
The client never inspects the bytes, so the export is modelled by its
identity. -/
inductive RawKeyExport where
  | pkcs8Priv (gen : Nat)
  | spkiPub (gen : Nat)
deriving DecidableEq, Repr

/-- Result of `ArrayBuffToBase64` applied to exported key bytes: an injective
text encoding of the raw export, as stored in the `{private, public}`
storage record. -/
structure B64Key where
  raw : RawKeyExport
deriving DecidableEq, Repr

/-- A keypair returned by `crypto.generateKey`, identified by the index
of the call that generated it. -/
structure CryptoKeyPair where
  gen : Nat
deriving DecidableEq, Repr

/-- Embeds `crypto.exportKey` with format `pkcs8` on the private half. -/
def exportKeyPkcs8 (kp : CryptoKeyPair) : RawKeyExport :=
  .pkcs8Priv kp.gen

/-- Embeds `crypto.exportKey` with format `spki` on the public half. -/
def exportKeySpki (kp : CryptoKeyPair) : RawKeyExport :=
  .spkiPub kp.gen

/-- Base64 encoding of exported key bytes. -/
def arrayBuffToBase64Key (r : RawKeyExport) : B64Key :=
  ⟨r⟩

/-- The key store's persisted record `{private, public}` plus the
fresh-index supply for `generateKey`. -/
structure KeyStoreState where
  priv : Option B64Key
  pub : Option B64Key
  nextGen : Nat
deriving DecidableEq, Repr

/-- Embeds `setCredentialAsync` (sessionKeyStore.ts lines 53-61): export both
halves, base64-encode, store. -/
def setCredential (kp : CryptoKeyPair) (s : KeyStoreState) : KeyStoreState :=
  { s with
    priv := some (arrayBuffToBase64Key (exportKeyPkcs8 kp)),
    pub := some (arrayBuffToBase64Key (exportKeySpki kp)) }

/-- Embeds `clearKeys` (sessionKeyStore.ts lines 63-65): reset the record to
`{private: null, public: null}`. -/
def clearKeys (s : KeyStoreState) : KeyStoreState :=
  { s with priv := none, pub := none }

/-- Embeds `checkAndSetKeysAsync` (sessionKeyStore.ts lines 67-86): if both
stored halves are non-nil, return; otherwise generate a keypair with
the configured algorithm and store both exported halves. -/
def checkAndSetKeysAsync (s : KeyStoreState) : KeyStoreState :=
  if s.priv.isSome && s.pub.isSome then s
  else
    let keypair : CryptoKeyPair := ⟨s.nextGen⟩
    setCredential keypair { s with nextGen := s.nextGen + 1 }

/-- Embeds `regenerateKeysAsync` (sessionKeyStore.ts lines 88-92): clear both
halves, then run `checkAndSetKeysAsync`. (`clearKeys()` is not awaited
in the source, but its body is synchronous, so the clear completes
before `checkAndSetKeysAsync` reads the store.) -/
def regenerateKeysAsync (s : KeyStoreState) : KeyStoreState :=
  checkAndSetKeysAsync (clearKeys s)

/-- Both storage halves present (`!isNil(priv) && !isNil(pub)`). -/
def bothKeysPresent (s : KeyStoreState) : Bool :=
  s.priv.isSome && s.pub.isSome

/-- Ciphertext delivered by the server: bytes encrypted under the
public key of generation `pubGen`. -/
structure CipherText where
  pubGen : Nat
  plain : List Nat
deriving DecidableEq, Repr

/-- Failures of the decryption path. -/
inductive CryptoError where
  /-- Error when `importKey` rejects: no stored private key (the
  source decodes `privateKey.value || ""`) or non-PKCS8 material. -/
  | importFailed
  /-- Error when `crypto.decrypt` rejects: ciphertext was produced under a public
  key that does not match the imported private key. -/
  | decryptFailed
deriving DecidableEq, Repr

/-- Encryption under a stored public key (the server side of the
exchange): only SPKI public material encrypts. -/
def encryptUnder (pubKey : B64Key) (m : List Nat) : Option CipherText :=
  match pubKey with
  | ⟨.spkiPub g⟩ => some ⟨g, m⟩
  | ⟨.pkcs8Priv _⟩ => none

/-- Embeds `decryptDataAsync` (sessionKeyStore.ts lines 94-105): import the
stored private key as PKCS8 and decrypt; rejects when no private key is
stored or when the ciphertext was made under a different keypair. -/
def decryptDataAsync (s : KeyStoreState) (c : CipherText) : Except CryptoError (List Nat) :=
  match s.priv with
  | none => .error .importFailed
  | some ⟨.spkiPub _⟩ => .error .importFailed
  | some ⟨.pkcs8Priv g⟩ => if c.pubGen = g then .ok c.plain else .error .decryptFailed

/-- Freshness invariant tying the store to the `generateKey` supply:
any stored half was produced by an earlier `generateKey` call, and
stored material has the format it was exported in. -/
def ksFresh (s : KeyStoreState) : Bool :=
  (match s.priv with
   | some ⟨.pkcs8Priv g⟩ => decide (g < s.nextGen)
   | some ⟨.spkiPub _⟩ => false
   | none => true) &&
  (match s.pub with
   | some ⟨.spkiPub g⟩ => decide (g < s.nextGen)
   | some ⟨.pkcs8Priv _⟩ => false
   | none => true)

/-! ## Session utilities (src/session/sessionUtils.ts) -/

/-- Ambient state of the browser runtime: the consumption counter of
`window.crypto.getRandomValues` draws, and the current UTC time. -/
structure World where
  rngCtr : Nat
  now : Nat
deriving DecidableEq, Repr

/-- Embeds `getRandomHex` (webcrypto.js lines 79-86): draw fresh random bytes
and hex-encode them. The randomness source is an explicit stream `rng`
read at the current counter; each call consumes one draw. -/
def getRandomHex (rng : Nat → String) (w : World) : String × World :=
  (rng w.rngCtr, { w with rngCtr := w.rngCtr + 1 })

/-- Embeds `Base64ToUint8Array` on the stored secret: an injective decoding of
the stored base64 text back to key bytes. -/
def base64ToUint8Array (s : String) : List Nat :=
  s.toList.map Char.toNat

/-- The compact signed JWT produced by `generateOneTimeToken`:
protected header `{alg}`, payload `{nonce, iat}`, HMAC-signed with the
shared key. Two compact tokens are equal exactly when all these
components are. -/
structure SignedJwt where
  alg : String
  nonce : String
  iat : Nat
  key : List Nat
deriving DecidableEq, Repr

/-- Embeds `generateOneTimeToken` (sessionUtils.ts lines 56-80):
`state.token.value ? Base64ToUint8Array(...) : null` (JS truthiness:
`null`/`undefined`/`""` are falsy); if the shared key is null return
null, otherwise draw a fresh 16-byte random nonce, set the `iat` claim
to the current time, and sign with the shared key. -/
def generateOneTimeToken (sigAlg : String) (rng : Nat → String)
    (token : Option String) (w : World) : Option SignedJwt × World :=
  let sharedKey : Option (List Nat) :=
    match token with
    | some t => if t ≠ "" then some (base64ToUint8Array t) else none
    | none => none
  match sharedKey with
  | none => (none, w)
  | some k =>
    let (nonce, w1) := getRandomHex rng w
    (some { alg := sigAlg, nonce := nonce, iat := w1.now, key := k }, w1)

/-- A bootstrap failure inside the key store: `generateKey`/`exportKey`
rejecting or the storage write throwing. -/
inductive BootFault where
  | cryptoFailure
  | storageFailure
deriving DecidableEq, Repr

/-- Embeds `checkAndSetKeysAsync` with its failure modes surfaced: when key
material must be generated, a crypto or storage fault rejects the
promise and leaves the store unchanged; when both halves are present
nothing can fail. -/
def checkAndSetKeysAsyncE (fault : Option BootFault) (s : KeyStoreState) :
    Except BootFault KeyStoreState :=
  if s.priv.isSome && s.pub.isSome then .ok s
  else
    match fault with
    | some f => .error f
    | none => .ok (setCredential ⟨s.nextGen⟩ { s with nextGen := s.nextGen + 1 })

/-- Client credential state seen by `checkAndSetCredentials`: the key
store plus the persisted browser id. -/
structure CredState where
  ks : KeyStoreState
  browserId : Option String
deriving DecidableEq, Repr

/-- Embeds `checkAndSetCredentials` (sessionUtils.ts lines 31-42). The source
calls `KeyStore.checkAndSetKeysAsync();` WITHOUT awaiting the returned
promise, so a rejection inside the key store does not propagate to the
promise returned to the caller; only the successful result is ever
observed in the store. The browser id is then generated if absent. -/
def checkAndSetCredentials (fault : Option BootFault) (rng : Nat → String)
    (st : CredState) (w : World) : Except BootFault (CredState × World) :=
  let ks1 : KeyStoreState :=
    match checkAndSetKeysAsyncE fault st.ks with
    | .ok k => k
    | .error _ => st.ks
  match st.browserId with
  | none =>
    let (bid, w1) := getRandomHex rng w
    .ok ({ ks := ks1, browserId := some bid }, w1)
  | some _ => .ok ({ st with ks := ks1 }, w)

/-! ## Heartbeat (src/user/user.ts lines 155-169) -/

/-- The uniform `{success, token?}` response envelope the heartbeat
inspects. -/
structure TokenResponse where
  success : Bool
  token : Option String
deriving DecidableEq, Repr

/-- An outbound HTTP request as the heartbeat builds it. -/
structure HttpRequest where
  endpoint : String
  body : Option String
deriving DecidableEq, Repr

/-- Observable outcome of one `heartbeat()` call: the request it sent,
whether it invoked `updateCredentials`, and the value it returned. -/
structure HeartbeatOutcome where
  request : HttpRequest
  updateCalled : Bool
  returned : TokenResponse
deriving DecidableEq, Repr

/-- Embeds `heartbeat` (user.ts lines 155-169): a POST to
the keepalive endpoint with no body; then
`if (response.data.success) await updateCredentials(response.data)`;
the response is returned. The guard at line 164 tests ONLY the success
flag. -/
def heartbeat (keepaliveEp : String) (resp : TokenResponse) : HeartbeatOutcome :=
  { request := { endpoint := keepaliveEp, body := none },
    updateCalled := resp.success,
    returned := resp }

/-- Modelled from the spec: "on a response with `success && token`,
calls `updateCredentials`" — the condition under which the spec says
the credentials update runs. -/
def heartbeatSpecGuard (resp : TokenResponse) : Bool :=
  resp.success && resp.token.isSome

/-! ## MFA upgrade flow (src/unnamed/part_002, `getMfaProcessor`) -/

/-- A server-issued MFA upgrade JWT: the raw compact text echoed back
verbatim, and its decoded (unverified) claims `{type, expires}`. -/
structure MfaJwt where
  raw : String
  type : String
  expires : Option Nat
deriving DecidableEq, Repr

/-- Embeds `decodeJwt` on the upgrade message: an unsecure decode exposing the
claims. -/
def decodeJwtType (m : MfaJwt) : String :=
  m.type

/-- A registered MFA method processor (`IMfaTypeProcessor`): keyed by
its `type` discriminator. -/
structure MfaTypeProcessor where
  type : String
deriving DecidableEq, Repr

/-- The continuation handed back to the caller: decoded claims plus a
live submit handler bound to the original raw message. -/
structure MfaContinuation where
  type : String
  expires : Option Nat
  upgrade : String
deriving DecidableEq, Repr

/-- Errors of the MFA login flow. -/
inductive MfaError where
  /-- Thrown as: Server responded with an unsupported two factor auth type, login
  cannot continue." -/
  | unsupportedMfaMethod
deriving DecidableEq, Repr

/-- Embeds `processMfa` (part_002 lines 141-160): decode the message, look its
`type` up in the handler registry; if no handler is found throw
`unsupportedMfaMethod`, otherwise build the submission handler and hand
the decoded claims to the selected processor (the TOTP processor
returns `{...payload, submit}`). -/
def processMfa (handlers : List MfaTypeProcessor) (msg : MfaJwt) :
    Except MfaError MfaContinuation :=
  match handlers.find? (fun h => h.type == decodeJwtType msg) with
  | none => .error .unsupportedMfaMethod
  | some h => .ok { type := h.type, expires := msg.expires, upgrade := msg.raw }

/-- A login response as `useMfaLogin` sees it: either final, or an MFA
upgrade carrying the signed message. -/
structure LoginResponse where
  mfa : Bool
  result : Option MfaJwt
deriving DecidableEq, Repr

/-- Outcome of the MFA-aware login flow. -/
inductive LoginOutcome where
  /-- Login finished without an MFA upgrade. -/
  | completed
  /-- An MFA continuation was returned to the caller. -/
  | continuation (c : MfaContinuation)
deriving DecidableEq, Repr

/-- The `login` of `useMfaLogin` (part_002): when the response carries
`mfa === true`, the upgrade message is processed — an error there
aborts the flow; otherwise the login is complete. -/
def mfaLogin (handlers : List MfaTypeProcessor) (resp : LoginResponse) :
    Except MfaError LoginOutcome :=
  if resp.mfa then
    match resp.result with
    | some msg => (processMfa handlers msg).map .continuation
    | none => .ok .completed
  else .ok .completed

/-! ## Logout (src/user/user.ts lines 77-90) -/

/-- Application-level state touched by the user api: the key store and
the persisted session record. -/
structure AppState where
  ks : KeyStoreState
  token : Option String
  browserId : Option String
deriving DecidableEq, Repr

/-- Embeds `logout` (user.ts lines 77-90): POST to the logout endpoint (no
client-side state effect), then
`await KeyStore.regenerateKeysAsync()`; no session-state field is
written by the function itself. -/
def logout (s : AppState) : AppState :=
  { s with ks := regenerateKeysAsync s.ks }

end VnBrowser

namespace VnBrowser

/-! ## Helper lemmas -/

/-- JS truthiness of the token (`!isEmpty(token)`) agrees with the
spec's "shared secret set". -/
theorem notEmpty_eq_isSet (t : Option String) : (!(isEmptyStr t)) = tokenIsSet t := by
  cases t with
  | none => rfl
  | some s =>
    cases s with
    | mk data =>
      cases data with
      | nil => rfl
      | cons c cs => rfl

/-- After `checkAndSetKeysAsync`, both storage halves are present. -/
theorem bothKeysPresent_checkAndSet (s : KeyStoreState) :
    bothKeysPresent (checkAndSetKeysAsync s) = true := by
  unfold checkAndSetKeysAsync
  split
  · next h => exact h
  · simp [bothKeysPresent, setCredential]

/-- The map `checkAndSetKeysAsync` is the identity when both halves are present. -/
theorem checkAndSet_fixed (s : KeyStoreState) (h : bothKeysPresent s = true) :
    checkAndSetKeysAsync s = s := by
  unfold bothKeysPresent at h
  simp [checkAndSetKeysAsync, h]

/-- Generating never bumps the fresh-index supply by more than one. -/
theorem checkAndSet_gen_le (s : KeyStoreState) :
    (checkAndSetKeysAsync s).nextGen ≤ s.nextGen + 1 := by
  unfold checkAndSetKeysAsync
  split
  · exact Nat.le_succ _
  · simp [setCredential]

/-- Iterating `checkAndSetKeysAsync` on a fully keyed store is the
identity. -/
theorem iterate_checkAndSet_fixed (n : Nat) (s : KeyStoreState)
    (h : bothKeysPresent s = true) : checkAndSetKeysAsync^[n] s = s := by
  induction n with
  | zero => rfl
  | succ n ih => rw [Function.iterate_succ_apply, checkAndSet_fixed s h, ih]

/-- Over any sequence of `checkAndSetKeysAsync` calls, at most one
keypair is generated. -/
theorem iterate_checkAndSet_gen_le (n : Nat) (s : KeyStoreState) :
    (checkAndSetKeysAsync^[n] s).nextGen ≤ s.nextGen + 1 := by
  cases n with
  | zero => exact Nat.le_succ _
  | succ n =>
    rw [Function.iterate_succ_apply,
      iterate_checkAndSet_fixed n _ (bothKeysPresent_checkAndSet s)]
    exact checkAndSet_gen_le s

/-- Normal form of `regenerateKeysAsync`. -/
theorem regenerate_eq (s : KeyStoreState) :
    regenerateKeysAsync s =
      { priv := some ⟨.pkcs8Priv s.nextGen⟩, pub := some ⟨.spkiPub s.nextGen⟩,
        nextGen := s.nextGen + 1 } := by
  simp [regenerateKeysAsync, clearKeys, checkAndSetKeysAsync, setCredential,
    arrayBuffToBase64Key, exportKeyPkcs8, exportKeySpki]

end VnBrowser

namespace VnBrowser

/-! ## Claim theorems -/

/-- C1: the derived `loggedIn` flag equals
`cookiesEnabled ? (loginCookie > 0 AND sharedSecret set) : sharedSecret set`;
in particular it is `false` whenever the secret is absent regardless of
cookie value, and `false` whenever cookies are enabled and the login
cookie is `0` regardless of secret presence. -/
theorem loggedIn_matches_spec (cookiesEnabled : Bool) (cookie : Nat) (token : Option String) :
    loggedIn cookiesEnabled cookie token = loggedInSpec cookiesEnabled cookie token ∧
    (tokenIsSet token = false → loggedIn cookiesEnabled cookie token = false) ∧
    (cookiesEnabled = true → cookie = 0 → loggedIn cookiesEnabled cookie token = false) := by
  refine ⟨?_, ?_, ?_⟩
  · cases cookiesEnabled <;> simp [loggedIn, loggedInSpec, notEmpty_eq_isSet]
  · intro h
    cases cookiesEnabled <;> simp [loggedIn, notEmpty_eq_isSet, h]
  · intro hc h0
    subst hc
    subst h0
    simp [loggedIn]

/-- Witness for C1: with cookies enabled and the cookie at `0`, a
present secret still yields `loggedIn = false`. -/
theorem loggedIn_matches_spec_witness :
    loggedIn true 0 (some "secret") = false :=
  (loggedIn_matches_spec true 0 (some "secret")).2.2 rfl rfl

/-- C10: an empty-string stored token behaves like an absent one:
`generateOneTimeToken` returns `null` and `loggedIn` is `false`. -/
theorem emptyToken_like_absent (sigAlg : String) (rng : Nat → String) (w : World)
    (cookiesEnabled : Bool) (cookie : Nat) :
    (generateOneTimeToken sigAlg rng (some "") w).1 = none ∧
    (generateOneTimeToken sigAlg rng none w).1 = none ∧
    loggedIn cookiesEnabled cookie (some "") = false ∧
    loggedIn cookiesEnabled cookie none = false := by
  refine ⟨rfl, rfl, ?_, ?_⟩ <;>
    cases cookiesEnabled <;> simp [loggedIn, isEmptyStr]

/-- C2 (amended): whenever `loggedIn` transitions from `true` to
`false` on a reactive step — whatever the triggering event, including
an external cookie clear and without any explicit `logout()` or
`clearLoginState()` call — the watcher clears the stored shared
secret. (The claim's stronger statement, that every reachable state
with `loggedIn = false` has a cleared secret, is refuted by the
separate counterexample theorem below.) -/
theorem loggedIn_transition_clears_token (s : SessionSnap) (e : SessionEvent)
    (h1 : snapLoggedIn s = true) (h2 : snapLoggedIn (step e s) = false) :
    (step e s).token = none := by
  unfold step watchLoggedIn
  cases hL : snapLoggedIn (applyEvent e s) with
  | false => simp [h1, hL]
  | true =>
    exfalso
    unfold step watchLoggedIn at h2
    simp [h1, hL] at h2

/-- Witness for C2's amended theorem: an external cookie clear on a
logged-in session clears the stored secret. -/
theorem loggedIn_transition_clears_token_witness :
    (step (SessionEvent.cookieChange 0)
      { cookiesEnabled := true, cookie := 1, token := some "AA", browserId := none }).token
      = none :=
  loggedIn_transition_clears_token _ _ (by decide) (by decide)

/-- Counterexample to C2 as stated: a reachable state (a secret is
delivered by `updateCredentials` while the login cookie is `0`) in
which `loggedIn` is `false` yet the stored shared secret is present. -/
theorem loggedIn_false_with_secret_reachable :
    Reachable true
      { cookiesEnabled := true, cookie := 0, token := some "AA", browserId := none } ∧
    snapLoggedIn
      { cookiesEnabled := true, cookie := 0, token := some "AA", browserId := none } = false ∧
    ({ cookiesEnabled := true, cookie := 0, token := some "AA", browserId := none }
      : SessionSnap).token ≠ none := by
  refine ⟨⟨[SessionEvent.credentialsUpdate "AA"], ?_⟩, ?_, ?_⟩ <;> decide

end VnBrowser

namespace VnBrowser

/-- C4: `checkAndSetKeysAsync` is idempotent — a no-op when both stored
halves are present; otherwise it generates a keypair, exports the
private (PKCS8) and public (SPKI) halves, base64-encodes both and
writes them to storage; and over any sequence of calls at most one
keypair is generated (the `generateKey` supply advances by at most
one) unless `clearKeys`/`regenerateKeysAsync` intervenes. -/
theorem checkAndSetKeys_idempotent (s : KeyStoreState) (n : Nat) :
    (bothKeysPresent s = true → checkAndSetKeysAsync s = s) ∧
    (bothKeysPresent s = false →
      checkAndSetKeysAsync s =
        setCredential ⟨s.nextGen⟩ { s with nextGen := s.nextGen + 1 }) ∧
    bothKeysPresent (checkAndSetKeysAsync s) = true ∧
    checkAndSetKeysAsync (checkAndSetKeysAsync s) = checkAndSetKeysAsync s ∧
    (checkAndSetKeysAsync^[n] s).nextGen ≤ s.nextGen + 1 := by
  refine ⟨fun h => checkAndSet_fixed s h, fun h => ?_,
    bothKeysPresent_checkAndSet s,
    checkAndSet_fixed _ (bothKeysPresent_checkAndSet s),
    iterate_checkAndSet_gen_le n s⟩
  unfold bothKeysPresent at h
  simp [checkAndSetKeysAsync, h]

/-- Witness for C4: on a fully keyed store the call is a no-op, and on
an empty store it writes both generated halves. -/
theorem checkAndSetKeys_idempotent_witness :
    checkAndSetKeysAsync
      { priv := some ⟨.pkcs8Priv 0⟩, pub := some ⟨.spkiPub 0⟩, nextGen := 1 } =
      { priv := some ⟨.pkcs8Priv 0⟩, pub := some ⟨.spkiPub 0⟩, nextGen := 1 } ∧
    checkAndSetKeysAsync { priv := none, pub := none, nextGen := 0 } =
      setCredential ⟨0⟩ { priv := none, pub := none, nextGen := 1 } :=
  ⟨(checkAndSetKeys_idempotent
      { priv := some ⟨.pkcs8Priv 0⟩, pub := some ⟨.spkiPub 0⟩, nextGen := 1 } 0).1
      (by decide),
   (checkAndSetKeys_idempotent { priv := none, pub := none, nextGen := 0 } 0).2.1
      (by decide)⟩

/-- C6: `regenerateKeysAsync` clears both stored halves and then runs
`checkAndSetKeysAsync`, so afterwards a keypair is present, the stored
public key differs from the one stored before the call, and a
ciphertext produced under the old public key no longer decrypts. -/
theorem regenerateKeys_invalidates (s : KeyStoreState) (g : Nat) (m : List Nat)
    (hf : ksFresh s = true) (hpub : s.pub = some ⟨.spkiPub g⟩) :
    regenerateKeysAsync s = checkAndSetKeysAsync (clearKeys s) ∧
    (regenerateKeysAsync s).priv.isSome = true ∧
    (regenerateKeysAsync s).pub.isSome = true ∧
    (regenerateKeysAsync s).pub ≠ s.pub ∧
    decryptDataAsync (regenerateKeysAsync s) ⟨g, m⟩ = .error .decryptFailed := by
  have hlt : g < s.nextGen := by
    unfold ksFresh at hf
    rw [hpub] at hf
    simp at hf
    exact hf.2
  have hne1 : s.nextGen ≠ g := Nat.ne_of_gt hlt
  have hne2 : g ≠ s.nextGen := Nat.ne_of_lt hlt
  refine ⟨rfl, ?_, ?_, ?_, ?_⟩
  · rw [regenerate_eq]
    rfl
  · rw [regenerate_eq]
    rfl
  · rw [regenerate_eq, hpub]
    simp [hne1]
  · rw [regenerate_eq]
    simp [decryptDataAsync, hne2]

/-- Witness for C6: regenerating over the generation-0 keypair yields a
different public key and the old ciphertext fails to decrypt. -/
theorem regenerateKeys_invalidates_witness :
    (regenerateKeysAsync
        { priv := some ⟨.pkcs8Priv 0⟩, pub := some ⟨.spkiPub 0⟩, nextGen := 1 }).pub ≠
      ({ priv := some ⟨.pkcs8Priv 0⟩, pub := some ⟨.spkiPub 0⟩, nextGen := 1 }
        : KeyStoreState).pub ∧
    decryptDataAsync
      (regenerateKeysAsync
        { priv := some ⟨.pkcs8Priv 0⟩, pub := some ⟨.spkiPub 0⟩, nextGen := 1 })
      ⟨0, [1, 2, 3]⟩ = .error .decryptFailed :=
  ⟨(regenerateKeys_invalidates _ 0 [1, 2, 3] (by decide) (by decide)).2.2.2.1,
   (regenerateKeys_invalidates _ 0 [1, 2, 3] (by decide) (by decide)).2.2.2.2⟩

end VnBrowser

namespace VnBrowser

/-- C3: `generateOneTimeToken` returns `null` exactly when no shared
secret is stored; when a secret is stored it returns a signed token
carrying a freshly drawn random nonce and an issued-at claim (one new
random draw per call), and two successive calls with the same stored
secret return different tokens whenever the two fresh draws differ. -/
theorem generateOneTimeToken_spec (sigAlg : String) (rng : Nat → String)
    (token : Option String) (w : World) :
    ((generateOneTimeToken sigAlg rng token w).1 = none ↔ tokenIsSet token = false) ∧
    (∀ t, token = some t → t ≠ "" →
      (generateOneTimeToken sigAlg rng token w).1 =
        some { alg := sigAlg, nonce := rng w.rngCtr, iat := w.now,
               key := base64ToUint8Array t } ∧
      (generateOneTimeToken sigAlg rng token w).2.rngCtr = w.rngCtr + 1) ∧
    (tokenIsSet token = true → rng w.rngCtr ≠ rng (w.rngCtr + 1) →
      (generateOneTimeToken sigAlg rng token w).1 ≠
        (generateOneTimeToken sigAlg rng token
          (generateOneTimeToken sigAlg rng token w).2).1) := by
  cases token with
  | none => simp [generateOneTimeToken, tokenIsSet]
  | some t =>
    by_cases ht : t = ""
    · subst ht
      simp [generateOneTimeToken, tokenIsSet]
    · refine ⟨?_, ?_, ?_⟩
      · simp [generateOneTimeToken, tokenIsSet, getRandomHex, ht]
      · intro t' ht' _
        rw [Option.some_inj] at ht'
        subst ht'
        exact ⟨by simp [generateOneTimeToken, getRandomHex, ht], by
          simp [generateOneTimeToken, getRandomHex, ht]⟩
      · intro _ hrng
        simp [generateOneTimeToken, getRandomHex, ht, hrng]

/-- Witness for C3: with a concrete stored secret and a
counter-indexed random stream, two successive calls yield different
tokens. -/
theorem generateOneTimeToken_spec_witness :
    (generateOneTimeToken "HS256" (fun n => toString n) (some "QQ")
        { rngCtr := 0, now := 7 }).1 ≠
      (generateOneTimeToken "HS256" (fun n => toString n) (some "QQ")
        (generateOneTimeToken "HS256" (fun n => toString n) (some "QQ")
          { rngCtr := 0, now := 7 }).2).1 :=
  (generateOneTimeToken_spec "HS256" (fun n => toString n) (some "QQ")
    { rngCtr := 0, now := 7 }).2.2 (by decide) (by decide)

/-- C5 (amended): `heartbeat` POSTs to the keepalive endpoint with no
body and returns the response to the caller, but it invokes
`updateCredentials` on every response whose `success` flag is set — the
token field is NOT part of the guard (user.ts line 164); in particular
the spec's `success && token` gate is still sufficient for the update
to run. The claim as stated is refuted by the separate
counterexample theorem below. -/
theorem heartbeat_spec_amended (ep : String) (r : TokenResponse) :
    (heartbeat ep r).request = { endpoint := ep, body := none } ∧
    (heartbeat ep r).updateCalled = r.success ∧
    (heartbeatSpecGuard r = true → (heartbeat ep r).updateCalled = true) ∧
    (heartbeat ep r).returned = r := by
  refine ⟨rfl, rfl, ?_, rfl⟩
  intro h
  simp [heartbeatSpecGuard] at h
  simp [heartbeat, h.1]

/-- Witness for C5's amended theorem: a success-with-token response
triggers the credentials update. -/
theorem heartbeat_spec_amended_witness :
    (heartbeat "keepalive" { success := true, token := some "T" }).updateCalled = true :=
  (heartbeat_spec_amended "keepalive" { success := true, token := some "T" }).2.2.1
    (by decide)

/-- Counterexample to C5 as stated: on a response with `success` set
but no token field, the code still invokes `updateCredentials`,
although the spec's `success && token` guard is false. -/
theorem heartbeat_guard_cex :
    (heartbeat "keepalive" { success := true, token := none }).updateCalled = true ∧
    heartbeatSpecGuard { success := true, token := none } = false := by
  decide

/-- C7: when the decoded MFA upgrade message names a type with no
registered handler, `processMfa` fails with the unsupported-method
error and the login flow aborts — it neither returns a continuation
nor falls back to completing the login. -/
theorem processMfa_unknown_aborts (handlers : List MfaTypeProcessor) (msg : MfaJwt)
    (h : handlers.find? (fun p => p.type == decodeJwtType msg) = none) :
    processMfa handlers msg = .error .unsupportedMfaMethod ∧
    (∀ resp : LoginResponse, resp.mfa = true → resp.result = some msg →
      mfaLogin handlers resp = .error .unsupportedMfaMethod) ∧
    (∀ c, mfaLogin handlers { mfa := true, result := some msg } ≠
      .ok (.continuation c)) ∧
    mfaLogin handlers { mfa := true, result := some msg } ≠ .ok .completed := by
  have hp : processMfa handlers msg = .error .unsupportedMfaMethod := by
    simp [processMfa, h]
  refine ⟨hp, ?_, ?_, ?_⟩
  · intro resp h1 h2
    simp [mfaLogin, h1, h2, hp, Except.map]
  · intro c
    simp [mfaLogin, hp, Except.map]
  · simp [mfaLogin, hp, Except.map]

/-- Witness for C7: a registry holding only the TOTP processor rejects
an upgrade message of type `fido`. -/
theorem processMfa_unknown_aborts_witness :
    processMfa [{ type := "totp" }] { raw := "jwt", type := "fido", expires := none } =
      .error .unsupportedMfaMethod :=
  (processMfa_unknown_aborts [{ type := "totp" }]
    { raw := "jwt", type := "fido", expires := none } (by decide)).1

/-- C8: the code contradicts the claim — `checkAndSetCredentials` calls
`KeyStore.checkAndSetKeysAsync()` without awaiting it (sessionUtils.ts
line 32), so a crypto/storage failure raised while bootstrapping the
keypair does NOT reject the promise returned to the caller: on an empty
key store with a failing generator, the inner operation rejects while
`checkAndSetCredentials` still resolves (and still generates a browser
id), leaving the key store empty. -/
theorem checkAndSetCredentials_swallows_fault :
    checkAndSetKeysAsyncE (some .cryptoFailure)
      { priv := none, pub := none, nextGen := 0 } = .error .cryptoFailure ∧
    checkAndSetCredentials (some .cryptoFailure) (fun _ => "ab")
      { ks := { priv := none, pub := none, nextGen := 0 }, browserId := none }
      { rngCtr := 0, now := 0 } =
      .ok ({ ks := { priv := none, pub := none, nextGen := 0 }, browserId := some "ab" },
           { rngCtr := 1, now := 0 }) := by
  constructor
  · rfl
  · rfl

/-- C9: `logout` regenerates the keypair (clear then check-and-set), so
afterwards both key halves are present; and it writes neither the
stored shared-secret token nor the browser id — those fields are
untouched by the call itself. -/
theorem logout_regenerates_and_frames (s : AppState) :
    logout s = { s with ks := checkAndSetKeysAsync (clearKeys s.ks) } ∧
    (logout s).ks.priv.isSome = true ∧
    (logout s).ks.pub.isSome = true ∧
    (logout s).token = s.token ∧
    (logout s).browserId = s.browserId := by
  refine ⟨rfl, ?_, ?_, rfl, rfl⟩ <;>
    simp [logout, regenerate_eq]

end VnBrowser
